import Mathlib

/-!
Shallow embedding of `orcamento_aluguel.py` (rental budget calculator).

Modelling conventions:
* Python `float` currency amounts are modelled as `ℚ`; every amount that
  occurs in this program is an exact multiple of 1/100 or a quotient
  2000/n (n ≤ 5), and at every formatting boundary the value is rounded
  to cents, so rational arithmetic agrees with the double computations
  at all points the development evaluates.
* Python `int` is modelled as `ℤ`; the `isinstance(..., int)` guards are
  vacuous in the embedding because the arguments are typed `ℤ`.
* `raise ValueError(msg)` is modelled as `Except.error msg`.
* `f"{x:.2f}"` rounding is modelled as round-half-up to cents
  (`⌊100x + 1/2⌋`); Python rounds the underlying double half-to-even,
  which coincides at every non-tie point, and no value in this
  development is a tie.
-/

namespace OrcamentoAluguel

instance instDecEqExcept {ε α : Type} [DecidableEq ε] [DecidableEq α] :
    DecidableEq (Except ε α) := fun x y =>
  match x, y with
  | .ok a, .ok b => if h : a = b then .isTrue (by rw [h]) else .isFalse (by simp [h])
  | .error a, .error b => if h : a = b then .isTrue (by rw [h]) else .isFalse (by simp [h])
  | .ok _, .error _ => .isFalse (by simp)
  | .error _, .ok _ => .isFalse (by simp)

/-- One decimal digit character: `digitChar d` is the character of `d % 10`. -/
def digitChar (d : ℕ) : Char :=
  (['0', '1', '2', '3', '4', '5', '6', '7', '8', '9']).getD (d % 10) '0'

/-- Worker for `natChars`: peel decimal digits from the right into the
accumulator, with enough fuel to exhaust the number (same structure as the
digit loop behind Python's `str(int)`). -/
def natCharsGo : ℕ → ℕ → List Char → List Char
  | 0, _, acc => acc
  | fuel + 1, n, acc =>
    if n < 10 then digitChar n :: acc
    else natCharsGo fuel (n / 10) (digitChar (n % 10) :: acc)

/-- Decimal digit string of a natural number, most significant first
(the digits Python produces for the integer part of a number). -/
def natChars (n : ℕ) : List Char :=
  natCharsGo (n + 1) n []

/-- Two-digit zero-padded rendering of `n < 100` (the fractional part of
a `:.2f` format). -/
def pad2 (n : ℕ) : List Char :=
  [digitChar (n / 10), digitChar n]

/-- Round a rational amount to integer cents: models formatting a Python
float with two decimal places (`⌊100q + 1/2⌋`; see header note on ties). -/
def roundCents (q : ℚ) : ℤ :=
  ⌊q * 100 + 1 / 2⌋

/-- `f"{q:.2f}"`: plain two-decimal rendering, period as decimal separator,
no thousands grouping (used by the CSV exporter). -/
def fmt2 (q : ℚ) : String :=
  let c := roundCents q
  String.mk ((if c < 0 then ['-'] else []) ++
    natChars (c.natAbs / 100) ++ '.' :: pad2 (c.natAbs % 100))

/-- `f"{m:02d}"`: two-digit zero-padded integer (month field of the CSV). -/
def fmt02 (m : ℕ) : List Char :=
  if m < 10 then ['0', digitChar m] else natChars m

/-- Insert `sep` after every three characters of a reversed digit list:
the right-to-left thousands grouping of Python's `{:,}` format. -/
def group3Rev (sep : Char) : List Char → List Char
  | a :: b :: c :: d :: rest => a :: b :: c :: sep :: group3Rev sep (d :: rest)
  | l => l

/-- Thousands-grouped decimal digits of `n`, with separator `sep`
(grouping proceeds from the least significant digit). -/
def groupSep (sep : Char) (n : ℕ) : List Char :=
  (group3Rev sep (natChars n).reverse).reverse

/-- `f"{q:,.2f}"`: US-style formatting with comma thousands separator and
period decimal separator, as produced on line 12 of the source. -/
def formatUS2 (q : ℚ) : List Char :=
  let c := roundCents q
  (if c < 0 then ['-'] else []) ++
    groupSep ',' (c.natAbs / 100) ++ '.' :: pad2 (c.natAbs % 100)

/-- Python `s.replace(a, b)` where the pattern `a` is a single character:
equivalent to a character-wise map. -/
def pyReplace1 (l : List Char) (a b : Char) : List Char :=
  l.map fun c => if c = a then b else c

/-- Composite of the three single-character replaces on line 14 of the
source (`,`→`X`, then `.`→`,`, then `X`→`.`): used to reason about the
separator swap as one character map. -/
def swapBR (c : Char) : Char :=
  if c = ',' then '.' else if c = '.' then ',' else if c = 'X' then '.' else c

/-- `brl(valor)` (source lines 10–15): format with US separators, then swap
`,`/`.` via the three-step replace chain, and prefix the currency marker. -/
def brl (valor : ℚ) : String :=
  let s := formatUS2 valor
  let s := pyReplace1 (pyReplace1 (pyReplace1 s ',' 'X') '.' ',') 'X' '.'
  "R$ " ++ String.mk s

/-- The currency-format contract stated by the spec (§4.3), written directly
from its words: two decimal digits, digits grouped with a period as
thousands separator, a comma as decimal separator, and a currency-marker
prelude. `brl` is proved to refine this rendering on non-negative amounts. -/
def brlSpecFormat (valor : ℚ) : String :=
  let c := roundCents valor
  "R$ " ++ String.mk (groupSep '.' (c.natAbs / 100) ++ ',' :: pad2 (c.natAbs % 100))

/-- The immutable quote record (`@dataclass(frozen=True) class Orcamento`). -/
structure Orcamento where
  tipo_imovel : String
  quartos : ℤ
  tem_garagem : Bool
  criancas : Option Bool
  vagas_estudio : ℤ
  aluguel_mensal : ℚ
  contrato_total : ℚ
  contrato_parcelas : ℤ
  deriving DecidableEq, Repr

/-- `Orcamento.valor_contrato_parcela` (source lines 29–31): the derived
per-installment contract amount, `contrato_total / contrato_parcelas`. -/
def Orcamento.valor_contrato_parcela (o : Orcamento) : ℚ :=
  o.contrato_total / (o.contrato_parcelas : ℚ)

namespace CalculadoraAluguel

def VALOR_APARTAMENTO_1Q : ℚ := 700
def VALOR_CASA_1Q : ℚ := 900
def VALOR_ESTUDIO : ℚ := 1200

def CONTRATO_TOTAL : ℚ := 2000
def MAX_PARCELAS_CONTRATO : ℤ := 5

def ADIC_APTO_2Q : ℚ := 200
def ADIC_CASA_2Q : ℚ := 250
def ADIC_GARAGEM_APTO_CASA : ℚ := 300

def ESTUDIO_2_VAGAS_VALOR : ℚ := 250
def ESTUDIO_VAGA_EXTRA_VALOR : ℚ := 60
def ESTUDIO_VAGAS_MIN : ℤ := 0

def DESCONTO_APTO_SEM_CRIANCAS : ℚ := 5 / 100

/-- Python `str.lower()` restricted to the Latin-1 range: ASCII `A`–`Z`
and `À`–`Þ` (except `×`) shift down by the case distance 32. This covers
every character of the type aliases, in particular `Ú` → `ú`. -/
def pyLower (c : Char) : Char :=
  if 65 ≤ c.toNat ∧ c.toNat ≤ 90 then Char.ofNat (c.toNat + 32)
  else if 192 ≤ c.toNat ∧ c.toNat ≤ 222 ∧ c.toNat ≠ 215 then Char.ofNat (c.toNat + 32)
  else c

/-- Whitespace stripped by Python `str.strip()`: the full set of code
points on which `str.isspace()` holds — tab through carriage return
(U+0009–U+000D), the information separators and space (U+001C–U+0020),
next line (U+0085), no-break space (U+00A0), Ogham space mark (U+1680),
the U+2000–U+200A spaces, line and paragraph separators (U+2028, U+2029),
narrow no-break space (U+202F), medium mathematical space (U+205F) and
ideographic space (U+3000). -/
def isPySpace (c : Char) : Bool :=
  (9 ≤ c.toNat && c.toNat ≤ 13) || (28 ≤ c.toNat && c.toNat ≤ 32) ||
    c.toNat = 133 || c.toNat = 160 || c.toNat = 5760 ||
    (8192 ≤ c.toNat && c.toNat ≤ 8202) || c.toNat = 8232 || c.toNat = 8233 ||
    c.toNat = 8239 || c.toNat = 8287 || c.toNat = 12288

/-- Python `str.strip()`: drop leading and trailing whitespace. -/
def pyStrip (l : List Char) : List Char :=
  ((l.dropWhile isPySpace).reverse.dropWhile isPySpace).reverse

/-- The normalised key `(tipo or "").strip().lower()` computed on source
line 132 (`tipo or ""` is the identity on every non-empty string and
maps `""` to `""`, so it is the identity here). -/
def chave (tipo : String) : String :=
  String.mk ((pyStrip tipo.data).map pyLower)

/-- `CalculadoraAluguel._normalizar_tipo` (source lines 131–139). -/
def _normalizar_tipo (tipo : String) : Except String String :=
  let t := chave tipo
  if t = "apartamento" ∨ t = "apto" then .ok "Apartamento"
  else if t = "casa" then .ok "Casa"
  else if t = "estudio" ∨ t = "estúdio" ∨ t = "studio" then .ok "Estudio"
  else .error "Tipo inválido. Use: Apartamento, Casa ou Estudio."

/-- `CalculadoraAluguel._validar_parcelas` (source lines 141–146); the
`isinstance` guard is vacuous for a `ℤ` argument. -/
def _validar_parcelas (parcelas : ℤ) : Except String ℤ :=
  if parcelas < 1 ∨ parcelas > MAX_PARCELAS_CONTRATO then
    .error "Parcelas do contrato deve ser entre 1 e 5."
  else .ok parcelas

/-- `CalculadoraAluguel._calc_apartamento` (source lines 148–162). -/
def _calc_apartamento (quartos : ℤ) (tem_garagem : Bool)
    (possui_criancas : Option Bool) : Except String ℚ :=
  if ¬(quartos = 1 ∨ quartos = 2) then
    .error "Apartamento: quartos deve ser 1 ou 2."
  else
    let aluguel := VALOR_APARTAMENTO_1Q
    let aluguel := if quartos = 2 then aluguel + ADIC_APTO_2Q else aluguel
    let aluguel := if tem_garagem then aluguel + ADIC_GARAGEM_APTO_CASA else aluguel
    let aluguel :=
      if possui_criancas = some false then
        aluguel * (1 - DESCONTO_APTO_SEM_CRIANCAS)
      else aluguel
    .ok aluguel

/-- `CalculadoraAluguel._calc_casa` (source lines 164–172). -/
def _calc_casa (quartos : ℤ) (tem_garagem : Bool) : Except String ℚ :=
  if ¬(quartos = 1 ∨ quartos = 2) then
    .error "Casa: quartos deve ser 1 ou 2."
  else
    let aluguel := VALOR_CASA_1Q
    let aluguel := if quartos = 2 then aluguel + ADIC_CASA_2Q else aluguel
    let aluguel := if tem_garagem then aluguel + ADIC_GARAGEM_APTO_CASA else aluguel
    .ok aluguel

/-- `CalculadoraAluguel._calc_estudio` (source lines 174–191); the
`isinstance` guard is vacuous for a `ℤ` argument. -/
def _calc_estudio (vagas : ℤ) : Except String ℚ :=
  if vagas < ESTUDIO_VAGAS_MIN then
    .error "Estudio: vagas deve ser um inteiro >= 0."
  else if vagas = 0 then .ok VALOR_ESTUDIO
  else if vagas ≤ 2 then .ok ( VALOR_ESTUDIO + ESTUDIO_2_VAGAS_VALOR)
  else
    .ok ( VALOR_ESTUDIO + ESTUDIO_2_VAGAS_VALOR +
      ((vagas : ℚ) - 2) * ESTUDIO_VAGA_EXTRA_VALOR)

/-- `CalculadoraAluguel.calcular` (source lines 81–129): normalise the type,
validate the installment count, dispatch to the matching pricing rule and
build the record. -/
def calcular (tipo_imovel : String) (quartos : ℤ) (tem_garagem : Bool)
    (possui_criancas : Option Bool) (vagas_estudio : ℤ)
    (parcelas_contrato : ℤ) : Except String Orcamento := do
  let tipo ← _normalizar_tipo tipo_imovel
  let parcelas ← _validar_parcelas parcelas_contrato
  if tipo = "Apartamento" then
    let aluguel ← _calc_apartamento quartos tem_garagem possui_criancas
    return { tipo_imovel := tipo, quartos := quartos, tem_garagem := tem_garagem,
             criancas := possui_criancas, vagas_estudio := 0,
             aluguel_mensal := aluguel, contrato_total := CONTRATO_TOTAL,
             contrato_parcelas := parcelas }
  else if tipo = "Casa" then
    let aluguel ← _calc_casa quartos tem_garagem
    return { tipo_imovel := tipo, quartos := quartos, tem_garagem := tem_garagem,
             criancas := none, vagas_estudio := 0,
             aluguel_mensal := aluguel, contrato_total := CONTRATO_TOTAL,
             contrato_parcelas := parcelas }
  else
    let aluguel ← _calc_estudio vagas_estudio
    return { tipo_imovel := tipo, quartos := 0, tem_garagem := false,
             criancas := none, vagas_estudio := vagas_estudio,
             aluguel_mensal := aluguel, contrato_total := CONTRATO_TOTAL,
             contrato_parcelas := parcelas }

end CalculadoraAluguel

/-- One data row of the exported CSV (the dict built on source lines 209–215;
numeric fields are already formatted strings there). -/
structure LinhaCSV where
  parcela : ℕ
  aluguel_mensal : String
  contrato_parcela : String
  total_mes : String
  data_referencia : String
  deriving DecidableEq, Repr

namespace ExportadorCSV

/-- The rows computed by `ExportadorCSV.exportar_12_parcelas` (source lines
197–215); the anchor date `date.today()` is abstracted to `(ano, mes)`,
and the file write is outside the embedding. -/
def exportar_12_parcelas (orc : Orcamento) (ano mes : ℕ) : List LinhaCSV :=
  let valor_contrato_parcela := orc.valor_contrato_parcela
  (List.range 12).map fun k =>
    let i : ℕ := k + 1
    let contrato_esta_parcela : ℚ :=
      if (i : ℤ) ≤ orc.contrato_parcelas then valor_contrato_parcela else 0
    let total_mes := orc.aluguel_mensal + contrato_esta_parcela
    { parcela := i,
      aluguel_mensal := fmt2 orc.aluguel_mensal,
      contrato_parcela := fmt2 contrato_esta_parcela,
      total_mes := fmt2 total_mes,
      data_referencia := String.mk (natChars ano ++ '-' :: fmt02 mes) }

end ExportadorCSV

end OrcamentoAluguel

/-! ## Theorems about the claims -/

namespace OrcamentoAluguel

open CalculadoraAluguel

/-- C1: for apartments the monthly rent is 700 base for 1 bedroom, plus 200
for 2 bedrooms, plus 300 for a garage, and the 5% multiplicative discount
applies exactly when `possui_criancas` is explicitly `some false`; both the
`none` (unknown) and `some true` answers leave the rent undiscounted, with
the two quoted examples 1140.00 and 700.00. -/
theorem claim_C1 :
    (∀ (q : ℤ) (g : Bool) (c : Option Bool), q = 1 ∨ q = 2 →
      _calc_apartamento q g c =
        .ok ((700 + (if q = 2 then 200 else 0) + (if g then 300 else 0)) *
          (if c = some false then 1 - 5 / 100 else 1))) ∧
    _calc_apartamento 2 true (some false) = .ok 1140 ∧
    _calc_apartamento 1 false (some true) = .ok 700 ∧
    (∀ (q : ℤ) (g : Bool),
      _calc_apartamento q g none = _calc_apartamento q g (some true)) := by
  refine ⟨?_, ?_, ?_, ?_⟩
  · rintro q g c (rfl | rfl) <;>
      rcases c with _ | c <;> cases g <;>
        simp [_calc_apartamento, VALOR_APARTAMENTO_1Q, ADIC_APTO_2Q,
          ADIC_GARAGEM_APTO_CASA, DESCONTO_APTO_SEM_CRIANCAS]
  · simp [_calc_apartamento, VALOR_APARTAMENTO_1Q, ADIC_APTO_2Q,
      ADIC_GARAGEM_APTO_CASA, DESCONTO_APTO_SEM_CRIANCAS]
    norm_num
  · simp [_calc_apartamento, VALOR_APARTAMENTO_1Q, ADIC_APTO_2Q,
      ADIC_GARAGEM_APTO_CASA, DESCONTO_APTO_SEM_CRIANCAS]
  · intro q g
    simp [_calc_apartamento]

/-- Witness for C1 at the quoted input: 2 bedrooms, garage, explicitly no
children. -/
theorem claim_C1_witness :
    ((2 : ℤ) = 1 ∨ (2 : ℤ) = 2) ∧
    _calc_apartamento 2 true (some false) =
      .ok ((700 + (if (2 : ℤ) = 2 then 200 else 0) + (if true then 300 else 0)) *
        (if (some false : Option Bool) = some false then 1 - 5 / 100 else 1)) :=
  ⟨Or.inr rfl, claim_C1.1 2 true (some false) (Or.inr rfl)⟩

/-- C2: for studios the rent is 1200 for zero slots, 1200 + 250 for one or
two slots (one slot is priced as the 2-slot package, not rejected),
1200 + 250 + (slots − 2)·60 beyond two slots, and the computation fails
with the invalid-input error exactly when the slot count is negative. -/
theorem claim_C2 :
    (∀ v : ℤ, v < 0 →
      _calc_estudio v = .error "Estudio: vagas deve ser um inteiro >= 0.") ∧
    _calc_estudio 0 = .ok 1200 ∧
    (∀ v : ℤ, v = 1 ∨ v = 2 → _calc_estudio v = .ok (1200 + 250)) ∧
    (∀ v : ℤ, 2 < v → _calc_estudio v = .ok (1200 + 250 + ((v : ℚ) - 2) * 60)) ∧
    (∀ v : ℤ, 0 ≤ v → ∀ e, _calc_estudio v ≠ .error e) := by
  refine ⟨?_, ?_, ?_, ?_, ?_⟩
  · intro v hv
    simp [_calc_estudio, ESTUDIO_VAGAS_MIN, hv]
  · simp [_calc_estudio, ESTUDIO_VAGAS_MIN, VALOR_ESTUDIO]
  · rintro v (rfl | rfl) <;>
      norm_num [_calc_estudio, ESTUDIO_VAGAS_MIN, VALOR_ESTUDIO, ESTUDIO_2_VAGAS_VALOR]
  · intro v hv
    have h0 : ¬v < ESTUDIO_VAGAS_MIN := by simp [ESTUDIO_VAGAS_MIN]; omega
    have h1 : ¬v = 0 := by omega
    have h2 : ¬v ≤ 2 := by omega
    simp [_calc_estudio, h0, h1, h2, VALOR_ESTUDIO, ESTUDIO_2_VAGAS_VALOR,
      ESTUDIO_VAGA_EXTRA_VALOR]
  · intro v hv e
    have h0 : ¬v < ESTUDIO_VAGAS_MIN := by simp [ESTUDIO_VAGAS_MIN]; omega
    simp only [_calc_estudio, h0, if_false]
    split_ifs <;> simp

/-- Witness for C2 at slots = 3 (the 1510.00 example). -/
theorem claim_C2_witness :
    (2 : ℤ) < 3 ∧ _calc_estudio 3 = .ok (1200 + 250 + ((3 : ℚ) - 2) * 60) :=
  ⟨by norm_num, claim_C2.2.2.2.1 3 (by norm_num)⟩

/-- C6: the installment validator returns its argument unchanged on 1..5
and fails with the invalid-input error exactly on n < 1 or n > 5, in
particular rejecting 0 and 6. -/
theorem claim_C6 :
    (∀ n : ℤ, 1 ≤ n ∧ n ≤ 5 → _validar_parcelas n = .ok n) ∧
    (∀ n : ℤ, n < 1 ∨ 5 < n →
      _validar_parcelas n = .error "Parcelas do contrato deve ser entre 1 e 5.") ∧
    (∃ e, _validar_parcelas 0 = .error e) ∧
    (∃ e, _validar_parcelas 6 = .error e) := by
  refine ⟨?_, ?_, ?_, ?_⟩
  · intro n hn
    have : ¬(n < 1 ∨ n > MAX_PARCELAS_CONTRATO) := by
      simp [MAX_PARCELAS_CONTRATO]; omega
    simp [_validar_parcelas, this]
  · intro n hn
    have : n < 1 ∨ n > MAX_PARCELAS_CONTRATO := by
      simp [MAX_PARCELAS_CONTRATO]; omega
    simp [_validar_parcelas, this]
  · exact ⟨"Parcelas do contrato deve ser entre 1 e 5.",
      by simp [_validar_parcelas, MAX_PARCELAS_CONTRATO]⟩
  · exact ⟨"Parcelas do contrato deve ser entre 1 e 5.",
      by norm_num [_validar_parcelas, MAX_PARCELAS_CONTRATO]⟩

/-- Witness for C6 at n = 3. -/
theorem claim_C6_witness :
    ((1 : ℤ) ≤ 3 ∧ (3 : ℤ) ≤ 5) ∧ _validar_parcelas 3 = .ok 3 :=
  ⟨⟨by norm_num, by norm_num⟩, claim_C6.1 3 ⟨by norm_num, by norm_num⟩⟩

/-- C7: for houses the monthly rent is 900 base for 1 bedroom, plus 250 for
2 bedrooms, plus 300 for a garage (1450.00 in the quoted example), and a
bedroom count outside {1, 2} fails with the invalid-input error. -/
theorem claim_C7 :
    (∀ (q : ℤ) (g : Bool), q = 1 ∨ q = 2 →
      _calc_casa q g =
        .ok (900 + (if q = 2 then 250 else 0) + (if g then 300 else 0))) ∧
    _calc_casa 2 true = .ok 1450 ∧
    (∀ (q : ℤ) (g : Bool), ¬(q = 1 ∨ q = 2) →
      _calc_casa q g = .error "Casa: quartos deve ser 1 ou 2.") := by
  refine ⟨?_, ?_, ?_⟩
  · rintro q g (rfl | rfl) <;> cases g <;>
      norm_num [_calc_casa, VALOR_CASA_1Q, ADIC_CASA_2Q, ADIC_GARAGEM_APTO_CASA]
  · norm_num [_calc_casa, VALOR_CASA_1Q, ADIC_CASA_2Q, ADIC_GARAGEM_APTO_CASA]
  · intro q g hq
    simp [_calc_casa, hq]

/-- Witness for C7 at the quoted input: 2 bedrooms with garage. -/
theorem claim_C7_witness :
    ((2 : ℤ) = 1 ∨ (2 : ℤ) = 2) ∧
    _calc_casa 2 true =
      .ok (900 + (if (2 : ℤ) = 2 then 250 else 0) + (if true then 300 else 0)) :=
  ⟨Or.inr rfl, claim_C7.1 2 true (Or.inr rfl)⟩

end OrcamentoAluguel


namespace OrcamentoAluguel

namespace CalculadoraAluguel

theorem char_toNat_ofNat (n : ℕ) (h : n.isValidChar) : (Char.ofNat n).toNat = n := by
  simp [Char.ofNat, Char.ofNatAux, Char.toNat, h, UInt32.toNat, BitVec.toNat_ofNatLt]

theorem pyLower_toNat_of_upper (c : Char)
    (h : (65 ≤ c.toNat ∧ c.toNat ≤ 90) ∨
      (192 ≤ c.toNat ∧ c.toNat ≤ 222 ∧ c.toNat ≠ 215)) :
    (pyLower c).toNat = c.toNat + 32 := by
  have hv : (c.toNat + 32).isValidChar := by
    left
    omega
  unfold pyLower
  rcases h with h | h
  · rw [if_pos h]
    exact char_toNat_ofNat _ hv
  · rw [if_neg (by omega), if_pos h]
    exact char_toNat_ofNat _ hv

theorem pyLower_eq_self (c : Char)
    (h : ¬((65 ≤ c.toNat ∧ c.toNat ≤ 90) ∨
      (192 ≤ c.toNat ∧ c.toNat ≤ 222 ∧ c.toNat ≠ 215))) :
    pyLower c = c := by
  unfold pyLower
  rw [if_neg (by omega), if_neg (by omega)]

theorem pyLower_pyLower (c : Char) : pyLower (pyLower c) = pyLower c := by
  by_cases h : (65 ≤ c.toNat ∧ c.toNat ≤ 90) ∨
      (192 ≤ c.toNat ∧ c.toNat ≤ 222 ∧ c.toNat ≠ 215)
  · have ht := pyLower_toNat_of_upper c h
    apply pyLower_eq_self
    omega
  · rw [pyLower_eq_self c h, pyLower_eq_self c h]

theorem isPySpace_pyLower (c : Char) : isPySpace (pyLower c) = isPySpace c := by
  by_cases h : (65 ≤ c.toNat ∧ c.toNat ≤ 90) ∨
      (192 ≤ c.toNat ∧ c.toNat ≤ 222 ∧ c.toNat ≠ 215)
  · have ht := pyLower_toNat_of_upper c h
    have hl : isPySpace (pyLower c) = false := by
      simp [isPySpace, ht]
      omega
    have hr : isPySpace c = false := by
      simp [isPySpace]
      omega
    rw [hl, hr]
  · rw [pyLower_eq_self c h]

theorem pyStrip_eq (l : List Char) :
    pyStrip l = List.rdropWhile isPySpace (List.dropWhile isPySpace l) := rfl

theorem get_head_of_append_eq (m r t : List Char) (ht : r ++ t = m)
    (h0 : 0 < (r ++ t).length) (hlen : 0 < m.length) :
    (r ++ t).get ⟨0, h0⟩ = m.get ⟨0, hlen⟩ := by
  subst ht
  rfl

theorem dropWhile_rdropWhile (p : Char → Bool) (m : List Char)
    (hm : List.dropWhile p m = m) :
    List.dropWhile p (List.rdropWhile p m) = List.rdropWhile p m := by
  rw [List.dropWhile_eq_self_iff]
  intro hl
  obtain ⟨t, ht⟩ := List.rdropWhile_prefix p m
  have hlen : 0 < m.length := by
    rw [← ht, List.length_append]
    omega
  have h0 : 0 < (List.rdropWhile p m ++ t).length := by
    rw [ht]
    exact hlen
  have e1 : (List.rdropWhile p m ++ t).get ⟨0, h0⟩ =
      (List.rdropWhile p m).get ⟨0, hl⟩ := List.get_append 0 hl
  have e2 : (List.rdropWhile p m ++ t).get ⟨0, h0⟩ = m.get ⟨0, hlen⟩ :=
    get_head_of_append_eq m _ t ht h0 hlen
  rw [e1.symm.trans e2]
  exact List.dropWhile_eq_self_iff.mp hm hlen

theorem pyStrip_idem (l : List Char) : pyStrip (pyStrip l) = pyStrip l := by
  rw [pyStrip_eq, pyStrip_eq]
  rw [dropWhile_rdropWhile isPySpace (List.dropWhile isPySpace l)
    (List.dropWhile_idempotent isPySpace l), List.rdropWhile_idempotent]

theorem pyStrip_map_pyLower (l : List Char) :
    pyStrip (l.map pyLower) = (pyStrip l).map pyLower := by
  have hpf : (isPySpace ∘ pyLower) = isPySpace := funext isPySpace_pyLower
  unfold pyStrip
  rw [List.dropWhile_map, hpf, ← List.map_reverse, List.dropWhile_map, hpf,
    ← List.map_reverse]

theorem map_pyLower_idem (l : List Char) :
    (l.map pyLower).map pyLower = l.map pyLower := by
  rw [List.map_map]
  exact List.map_congr_left fun c _ => pyLower_pyLower c

theorem chave_mk_strip (s : String) :
    chave (String.mk (pyStrip s.data)) = chave s := by
  unfold chave
  rw [show (String.mk (pyStrip s.data)).data = pyStrip s.data from rfl, pyStrip_idem]

theorem chave_mk_lower (s : String) :
    chave (String.mk (s.data.map pyLower)) = chave s := by
  unfold chave
  rw [show (String.mk (s.data.map pyLower)).data = s.data.map pyLower from rfl,
    pyStrip_map_pyLower, map_pyLower_idem]

end CalculadoraAluguel

open CalculadoraAluguel

/-- C5: `_normalizar_tipo` depends only on the lowercased, trimmed key of
its input (so it maps every casing/whitespace variant alike), it accepts
the documented aliases "apartamento"/"apto" as Apartment, "casa" as House,
"estudio"/"estúdio"/"studio" as Studio, and it fails with the
invalid-input error on every string whose key matches no alias. -/
theorem claim_C5 :
    (∀ s₁ s₂ : String, chave s₁ = chave s₂ → _normalizar_tipo s₁ = _normalizar_tipo s₂) ∧
    (∀ s : String, _normalizar_tipo (String.mk (s.data.map pyLower)) = _normalizar_tipo s) ∧
    (∀ s : String, _normalizar_tipo (String.mk (pyStrip s.data)) = _normalizar_tipo s) ∧
    _normalizar_tipo "  APTO " = .ok "Apartamento" ∧
    _normalizar_tipo "Apartamento" = .ok "Apartamento" ∧
    _normalizar_tipo " casa" = .ok "Casa" ∧
    _normalizar_tipo "CASA" = .ok "Casa" ∧
    _normalizar_tipo "ESTÚDIO " = .ok "Estudio" ∧
    _normalizar_tipo "\x1CCASA\x1C" = .ok "Casa" ∧
    _normalizar_tipo "\xA0Apto\xA0" = .ok "Apartamento" ∧
    _normalizar_tipo "estudio" = .ok "Estudio" ∧
    _normalizar_tipo "Studio" = .ok "Estudio" ∧
    (∀ s : String,
      chave s ∉ (["apartamento", "apto", "casa", "estudio", "estúdio", "studio"] : List String) →
      _normalizar_tipo s = .error "Tipo inválido. Use: Apartamento, Casa ou Estudio.") := by
  have congr5 : ∀ s₁ s₂ : String, chave s₁ = chave s₂ →
      _normalizar_tipo s₁ = _normalizar_tipo s₂ := by
    intro s₁ s₂ h
    unfold _normalizar_tipo
    rw [h]
  refine ⟨congr5, fun s => congr5 _ _ (chave_mk_lower s),
    fun s => congr5 _ _ (chave_mk_strip s), by decide, by decide, by decide,
    by decide, by decide, by decide, by decide, by decide, by decide, ?_⟩
  intro s h
  simp only [List.mem_cons, List.not_mem_nil, or_false, not_or] at h
  obtain ⟨h1, h2, h3, h4, h5, h6⟩ := h
  unfold _normalizar_tipo
  simp [h1, h2, h3, h4, h5, h6]

/-- Witness for C5: "APTO" and " apto " share a key, and the congruence
part of the claim applies to them. -/
theorem claim_C5_witness :
    chave "APTO" = chave " apto " ∧ _normalizar_tipo "APTO" = _normalizar_tipo " apto " :=
  ⟨by decide, claim_C5.1 "APTO" " apto " (by decide)⟩

end OrcamentoAluguel


namespace OrcamentoAluguel

namespace CalculadoraAluguel

theorem calcular_eq (t : String) (q : ℤ) (g : Bool) (c : Option Bool) (v p : ℤ) :
    calcular t q g c v p =
      match _normalizar_tipo t with
      | .error e => .error e
      | .ok tipo =>
        match _validar_parcelas p with
        | .error e => .error e
        | .ok parcelas =>
        if tipo = "Apartamento" then
          match _calc_apartamento q g c with
          | .error e => .error e
          | .ok a => .ok ⟨tipo, q, g, c, 0, a, CONTRATO_TOTAL, parcelas⟩
        else if tipo = "Casa" then
          match _calc_casa q g with
          | .error e => .error e
          | .ok a => .ok ⟨tipo, q, g, none, 0, a, CONTRATO_TOTAL, parcelas⟩
        else
          match _calc_estudio v with
          | .error e => .error e
          | .ok a => .ok ⟨tipo, 0, false, none, v, a, CONTRATO_TOTAL, parcelas⟩ := by
  unfold calcular
  cases hn : _normalizar_tipo t with
  | error e => simp [Except.instMonad, Except.bind, Except.map, Except.pure]
  | ok tipo =>
    cases hv : _validar_parcelas p with
    | error e => simp [Except.instMonad, Except.bind, Except.map, Except.pure]
    | ok parcelas =>
      simp only [Except.instMonad, Except.bind, Except.map, Except.pure]
      split_ifs <;>
        [cases _calc_apartamento q g c; cases _calc_casa q g; cases _calc_estudio v] <;>
        simp [Except.instMonad, Except.bind, Except.map, Except.pure]

theorem normalizar_ok_cases {t s : String} (h : _normalizar_tipo t = .ok s) :
    s = "Apartamento" ∨ s = "Casa" ∨ s = "Estudio" := by
  simp only [_normalizar_tipo] at h
  split_ifs at h <;> simp only [Except.ok.injEq, reduceCtorEq] at h <;> simp [← h]

theorem validar_ok_bounds {p x : ℤ} (h : _validar_parcelas p = .ok x) :
    x = p ∧ 1 ≤ p ∧ p ≤ 5 := by
  unfold _validar_parcelas at h
  by_cases hc : p < 1 ∨ p > MAX_PARCELAS_CONTRATO
  · rw [if_pos hc] at h
    exact absurd h (by simp)
  · rw [if_neg hc] at h
    simp only [Except.ok.injEq] at h
    simp only [MAX_PARCELAS_CONTRATO, not_or, not_lt] at hc
    exact ⟨h.symm, by omega, by omega⟩

theorem validar_ok_of {p : ℤ} (h1 : 1 ≤ p) (h5 : p ≤ 5) :
    _validar_parcelas p = .ok p := by
  unfold _validar_parcelas
  rw [if_neg]
  simp only [MAX_PARCELAS_CONTRATO, not_or, not_lt]
  omega

theorem calc_estudio_ok_of {v : ℤ} (hv : 0 ≤ v) :
    ∃ a, _calc_estudio v = .ok a := by
  unfold _calc_estudio
  rw [if_neg (by simp [ESTUDIO_VAGAS_MIN]; omega)]
  split_ifs <;> exact ⟨_, rfl⟩

theorem calcular_ok_inv {t : String} {q : ℤ} {g : Bool} {c : Option Bool} {v p : ℤ}
    {o : Orcamento} (h : calcular t q g c v p = .ok o) :
    o.contrato_total = CONTRATO_TOTAL ∧
    _validar_parcelas p = .ok o.contrato_parcelas ∧
    _normalizar_tipo t = .ok o.tipo_imovel ∧
    ((o.tipo_imovel = "Apartamento" ∧ _calc_apartamento q g c = .ok o.aluguel_mensal ∧
        o.quartos = q ∧ o.tem_garagem = g ∧ o.criancas = c ∧ o.vagas_estudio = 0) ∨
     (o.tipo_imovel = "Casa" ∧ _calc_casa q g = .ok o.aluguel_mensal ∧
        o.quartos = q ∧ o.tem_garagem = g ∧ o.criancas = none ∧ o.vagas_estudio = 0) ∨
     (o.tipo_imovel = "Estudio" ∧ _calc_estudio v = .ok o.aluguel_mensal ∧
        o.quartos = 0 ∧ o.tem_garagem = false ∧ o.criancas = none ∧
        o.vagas_estudio = v)) := by
  rw [calcular_eq] at h
  revert h
  cases hn : _normalizar_tipo t with
  | error e => intro h; exact absurd h (by simp)
  | ok tipo =>
    cases hv : _validar_parcelas p with
    | error e => intro h; exact absurd h (by simp)
    | ok parcelas =>
      intro h
      simp only at h
      rcases normalizar_ok_cases hn with rfl | rfl | rfl
      · rw [if_pos rfl] at h
        revert h
        cases hc : _calc_apartamento q g c with
        | error e => intro h; exact absurd h (by simp)
        | ok a =>
          intro h
          simp only [Except.ok.injEq] at h
          rw [← h]
          exact ⟨rfl, rfl, rfl, Or.inl ⟨rfl, rfl, rfl, rfl, rfl, rfl⟩⟩
      · rw [if_neg (by decide), if_pos rfl] at h
        revert h
        cases hc : _calc_casa q g with
        | error e => intro h; exact absurd h (by simp)
        | ok a =>
          intro h
          simp only [Except.ok.injEq] at h
          rw [← h]
          exact ⟨rfl, rfl, rfl, Or.inr (Or.inl ⟨rfl, rfl, rfl, rfl, rfl, rfl⟩)⟩
      · rw [if_neg (by decide), if_neg (by decide)] at h
        revert h
        cases hc : _calc_estudio v with
        | error e => intro h; exact absurd h (by simp)
        | ok a =>
          intro h
          simp only [Except.ok.injEq] at h
          rw [← h]
          exact ⟨rfl, rfl, rfl, Or.inr (Or.inr ⟨rfl, rfl, rfl, rfl, rfl, rfl⟩)⟩

theorem calcular_error_inv {t : String} {q : ℤ} {g : Bool} {c : Option Bool} {v p : ℤ}
    {e : String} (h : calcular t q g c v p = .error e) :
    _normalizar_tipo t = .error e ∨
    ((∃ s, _normalizar_tipo t = .ok s) ∧ _validar_parcelas p = .error e) ∨
    ((∃ s, _normalizar_tipo t = .ok s) ∧ (∃ x, _validar_parcelas p = .ok x) ∧
      (_calc_apartamento q g c = .error e ∨ _calc_casa q g = .error e ∨
        _calc_estudio v = .error e)) := by
  rw [calcular_eq] at h
  revert h
  cases hn : _normalizar_tipo t with
  | error e0 =>
    intro h
    simp only [Except.error.injEq] at h
    subst h
    exact Or.inl rfl
  | ok tipo =>
    cases hv : _validar_parcelas p with
    | error e0 =>
      intro h
      simp only [Except.error.injEq] at h
      subst h
      exact Or.inr (Or.inl ⟨⟨tipo, rfl⟩, rfl⟩)
    | ok parcelas =>
      intro h
      simp only at h
      rcases normalizar_ok_cases hn with rfl | rfl | rfl
      · rw [if_pos rfl] at h
        revert h
        cases hc : _calc_apartamento q g c with
        | error e0 =>
          intro h
          simp only [Except.error.injEq] at h
          subst h
          exact Or.inr (Or.inr ⟨⟨_, rfl⟩, ⟨_, rfl⟩, Or.inl rfl⟩)
        | ok a => intro h; exact absurd h (by simp)
      · rw [if_neg (by decide), if_pos rfl] at h
        revert h
        cases hc : _calc_casa q g with
        | error e0 =>
          intro h
          simp only [Except.error.injEq] at h
          subst h
          exact Or.inr (Or.inr ⟨⟨_, rfl⟩, ⟨_, rfl⟩, Or.inr (Or.inl rfl)⟩)
        | ok a => intro h; exact absurd h (by simp)
      · rw [if_neg (by decide), if_neg (by decide)] at h
        revert h
        cases hc : _calc_estudio v with
        | error e0 =>
          intro h
          simp only [Except.error.injEq] at h
          subst h
          exact Or.inr (Or.inr ⟨⟨_, rfl⟩, ⟨_, rfl⟩, Or.inr (Or.inr rfl)⟩)
        | ok a => intro h; exact absurd h (by simp)

end CalculadoraAluguel

open CalculadoraAluguel

/-- C4: every quote record produced by `calcular` has contract total
2000.00 and an installment count in 1..5, and the derived per-installment
amount times the installment count equals the contract total exactly, as
rationals, before any rounding. -/
theorem claim_C4 :
    ∀ (t : String) (q : ℤ) (g : Bool) (c : Option Bool) (v p : ℤ) (o : Orcamento),
      calcular t q g c v p = .ok o →
      o.valor_contrato_parcela * (o.contrato_parcelas : ℚ) = o.contrato_total ∧
      o.contrato_total = 2000 ∧ 1 ≤ o.contrato_parcelas ∧ o.contrato_parcelas ≤ 5 := by
  intro t q g c v p o h
  obtain ⟨htot, hval, -, -⟩ := calcular_ok_inv h
  obtain ⟨hx, h1, h5⟩ := validar_ok_bounds hval
  have hne : (o.contrato_parcelas : ℚ) ≠ 0 := by
    exact_mod_cast (by omega : o.contrato_parcelas ≠ 0)
  refine ⟨?_, ?_, by omega, by omega⟩
  · unfold Orcamento.valor_contrato_parcela
    exact div_mul_cancel₀ o.contrato_total hne
  · rw [htot]
    simp [CONTRATO_TOTAL]

/-- Witness for C4 on a concrete 2-installment house quote. -/
theorem claim_C4_witness :
    ∃ o : Orcamento, calcular "Casa" 1 false none 0 2 = .ok o ∧
      o.valor_contrato_parcela * (o.contrato_parcelas : ℚ) = o.contrato_total := by
  have h1 : _normalizar_tipo "Casa" = .ok "Casa" := by decide
  have h2 : _validar_parcelas 2 = .ok 2 := by decide
  have h3 : _calc_casa 1 false = .ok 900 := by
    norm_num [_calc_casa, VALOR_CASA_1Q]
  have hEval : calcular "Casa" 1 false none 0 2 =
      .ok ⟨"Casa", 1, false, none, 0, 900, CONTRATO_TOTAL, 2⟩ := by
    rw [calcular_eq, h1, h2]
    simp [h3]
  exact ⟨_, hEval, (claim_C4 "Casa" 1 false none 0 2 _ hEval).1⟩


/-- C8: a successful `calcular` yields a fully populated record — contract
total 2000.00, a validated installment count (1..5) and a recognised
property type — and a failing `calcular` propagates the error of one of
the validation steps (`_normalizar_tipo`, `_validar_parcelas`, or the
dispatched pricing rule), so no record is ever built on the error path. -/
theorem claim_C8 :
    (∀ (t : String) (q : ℤ) (g : Bool) (c : Option Bool) (v p : ℤ) (o : Orcamento),
      calcular t q g c v p = .ok o →
      o.contrato_total = 2000 ∧ _validar_parcelas p = .ok o.contrato_parcelas ∧
      1 ≤ o.contrato_parcelas ∧ o.contrato_parcelas ≤ 5 ∧
      (o.tipo_imovel = "Apartamento" ∨ o.tipo_imovel = "Casa" ∨
        o.tipo_imovel = "Estudio")) ∧
    (∀ (t : String) (q : ℤ) (g : Bool) (c : Option Bool) (v p : ℤ) (e : String),
      calcular t q g c v p = .error e →
      _normalizar_tipo t = .error e ∨
      ((∃ s, _normalizar_tipo t = .ok s) ∧ _validar_parcelas p = .error e) ∨
      ((∃ s, _normalizar_tipo t = .ok s) ∧ (∃ x, _validar_parcelas p = .ok x) ∧
        (_calc_apartamento q g c = .error e ∨ _calc_casa q g = .error e ∨
          _calc_estudio v = .error e))) := by
  constructor
  · intro t q g c v p o h
    obtain ⟨htot, hval, hn, hdisp⟩ := calcular_ok_inv h
    obtain ⟨hx, h1, h5⟩ := validar_ok_bounds hval
    refine ⟨by rw [htot]; simp [CONTRATO_TOTAL], hval, by omega, by omega, ?_⟩
    rcases hdisp with ⟨ht, -⟩ | ⟨ht, -⟩ | ⟨ht, -⟩
    · exact Or.inl ht
    · exact Or.inr (Or.inl ht)
    · exact Or.inr (Or.inr ht)
  · intro t q g c v p e h
    exact calcular_error_inv h

/-- Witness for C8 on a concrete studio quote. -/
theorem claim_C8_witness :
    ∃ o : Orcamento, calcular "estudio" 1 true (some true) 0 1 = .ok o ∧
      o.contrato_total = 2000 := by
  have h1 : _normalizar_tipo "estudio" = .ok "Estudio" := by decide
  have h2 : _validar_parcelas 1 = .ok 1 := by decide
  have h3 : _calc_estudio 0 = .ok 1200 := by
    norm_num [_calc_estudio, ESTUDIO_VAGAS_MIN, VALOR_ESTUDIO]
  have hEval : calcular "estudio" 1 true (some true) 0 1 =
      .ok ⟨"Estudio", 0, false, none, 0, 1200, CONTRATO_TOTAL, 1⟩ := by
    rw [calcular_eq, h1, h2]
    simp [h3]
  exact ⟨_, hEval,
    (claim_C8.1 "estudio" 1 true (some true) 0 1 _ hEval).1⟩

/-- C10: `calcular` validates only the inputs relevant to the normalised
type — for Studio the result does not depend on bedrooms/garage/children
and the record stores 0/false/none for them, succeeding for any such
arguments whenever the slot and installment counts are valid; for
Apartment and House the result does not depend on the slot count (even a
negative one) and the record stores 0 slots. -/
theorem claim_C10 :
    (∀ (t : String) (q q2 : ℤ) (g g2 : Bool) (c c2 : Option Bool) (v p : ℤ),
      _normalizar_tipo t = .ok "Estudio" →
      calcular t q g c v p = calcular t q2 g2 c2 v p) ∧
    (∀ (t : String) (q : ℤ) (g : Bool) (c : Option Bool) (v p : ℤ) (o : Orcamento),
      _normalizar_tipo t = .ok "Estudio" → calcular t q g c v p = .ok o →
      o.quartos = 0 ∧ o.tem_garagem = false ∧ o.criancas = none ∧
        o.vagas_estudio = v) ∧
    (∀ (t : String) (q : ℤ) (g : Bool) (c : Option Bool) (v p : ℤ),
      _normalizar_tipo t = .ok "Estudio" → 0 ≤ v → 1 ≤ p → p ≤ 5 →
      ∃ o, calcular t q g c v p = .ok o) ∧
    (∀ (t : String) (q : ℤ) (g : Bool) (c : Option Bool) (v v2 p : ℤ),
      (_normalizar_tipo t = .ok "Apartamento" ∨ _normalizar_tipo t = .ok "Casa") →
      calcular t q g c v p = calcular t q g c v2 p) ∧
    (∀ (t : String) (q : ℤ) (g : Bool) (c : Option Bool) (v p : ℤ) (o : Orcamento),
      (_normalizar_tipo t = .ok "Apartamento" ∨ _normalizar_tipo t = .ok "Casa") →
      calcular t q g c v p = .ok o → o.vagas_estudio = 0) := by
  refine ⟨?_, ?_, ?_, ?_, ?_⟩
  · intro t q q2 g g2 c c2 v p hn
    rw [calcular_eq, calcular_eq, hn]
    simp
  · intro t q g c v p o hn h
    obtain ⟨-, -, hn2, hdisp⟩ := calcular_ok_inv h
    rw [hn] at hn2
    have htipo : o.tipo_imovel = "Estudio" := by
      have := hn2
      simp only [Except.ok.injEq] at this
      exact this.symm
    rcases hdisp with ⟨ht, -⟩ | ⟨ht, -⟩ | ⟨-, -, hq, hg, hc, hv⟩
    · rw [htipo] at ht
      exact absurd ht (by decide)
    · rw [htipo] at ht
      exact absurd ht (by decide)
    · exact ⟨hq, hg, hc, hv⟩
  · intro t q g c v p hn hv h1 h5
    obtain ⟨a, ha⟩ := calc_estudio_ok_of hv
    refine ⟨⟨"Estudio", 0, false, none, v, a, CONTRATO_TOTAL, p⟩, ?_⟩
    rw [calcular_eq, hn, validar_ok_of h1 h5]
    simp [ha]
  · intro t q g c v v2 p hn
    rcases hn with hn | hn <;> rw [calcular_eq, calcular_eq, hn] <;> simp
  · intro t q g c v p o hn h
    obtain ⟨-, -, hn2, hdisp⟩ := calcular_ok_inv h
    rcases hn with hn | hn <;> rw [hn] at hn2 <;>
      (have htipo := (by simpa using hn2 : _ = o.tipo_imovel)) <;>
      rcases hdisp with ⟨ht, -, -, -, -, hv0⟩ | ⟨ht, -, -, -, -, hv0⟩ |
        ⟨ht, -, -, -, -, hv0⟩ <;>
      first
      | exact hv0
      | (rw [← htipo] at ht; exact absurd ht (by decide))

/-- Witness for C10: a studio quote with out-of-range bedroom input equals
the same quote with default inputs. -/
theorem claim_C10_witness :
    _normalizar_tipo "studio" = .ok "Estudio" ∧
    calcular "studio" 5 true (some true) 2 1 = calcular "studio" 1 false none 2 1 :=
  ⟨by decide, claim_C10.1 "studio" 5 1 true false (some true) none 2 1 (by decide)⟩

end OrcamentoAluguel


namespace OrcamentoAluguel

open CalculadoraAluguel

theorem roundCents_of_bounds (q : ℚ) (c : ℤ) (h1 : (c : ℚ) ≤ q * 100 + 1 / 2)
    (h2 : q * 100 + 1 / 2 < c + 1) : roundCents q = c := by
  unfold roundCents
  rw [Int.floor_eq_iff]
  exact ⟨h1, h2⟩

theorem fmt2_zero : fmt2 0 = "0.00" := by
  have hc : roundCents 0 = 0 := roundCents_of_bounds 0 0 (by norm_num) (by norm_num)
  simp only [fmt2, hc]
  decide

theorem fmt2_1140 : fmt2 1140 = "1140.00" := by
  have hc : roundCents 1140 = 114000 :=
    roundCents_of_bounds 1140 114000 (by norm_num) (by norm_num)
  simp only [fmt2, hc]
  decide

theorem fmt2_tercio : fmt2 (2000 / 3) = "666.67" := by
  have hc : roundCents (2000 / 3) = 66667 :=
    roundCents_of_bounds (2000 / 3) 66667 (by norm_num) (by norm_num)
  simp only [fmt2, hc]
  decide

theorem fmt2_total_tercio : fmt2 (1140 + 2000 / 3) = "1806.67" := by
  have hc : roundCents (1140 + 2000 / 3) = 180667 :=
    roundCents_of_bounds (1140 + 2000 / 3) 180667 (by norm_num) (by norm_num)
  simp only [fmt2, hc]
  decide

theorem exportar_length (orc : Orcamento) (ano mes : ℕ) :
    (ExportadorCSV.exportar_12_parcelas orc ano mes).length = 12 := by
  simp [ExportadorCSV.exportar_12_parcelas]

theorem exportar_get (orc : Orcamento) (ano mes k : ℕ)
    (hk : k < (ExportadorCSV.exportar_12_parcelas orc ano mes).length) :
    (ExportadorCSV.exportar_12_parcelas orc ano mes).get ⟨k, hk⟩ =
      { parcela := k + 1,
        aluguel_mensal := fmt2 orc.aluguel_mensal,
        contrato_parcela := fmt2 (if ((k + 1 : ℕ) : ℤ) ≤ orc.contrato_parcelas
          then orc.valor_contrato_parcela else 0),
        total_mes := fmt2 (orc.aluguel_mensal +
          (if ((k + 1 : ℕ) : ℤ) ≤ orc.contrato_parcelas
            then orc.valor_contrato_parcela else 0)),
        data_referencia := String.mk (natChars ano ++ '-' :: fmt02 mes) } := by
  have hk12 : k < 12 := by
    rw [exportar_length] at hk
    exact hk
  simp only [ExportadorCSV.exportar_12_parcelas, List.get_eq_getElem,
    List.getElem_map, List.getElem_range]

end OrcamentoAluguel

namespace OrcamentoAluguel

open CalculadoraAluguel

/-- C3: for every quote and anchor date the schedule has exactly 12 rows
with periodIndex 1..12 in order; a row's contract-installment field is the
formatted per-installment amount while periodIndex ≤ contractInstallments
and exactly "0.00" afterwards; the total field is the formatted sum of the
monthly rent and that installment; every row carries the same year-month
reference label derived from the anchor date; and for the
Apartment/2-bedroom/garage/children=false/3-installment quote, rows 1–3
read 666.67 / 1806.67 and rows 4–12 read 0.00 / 1140.00. -/
theorem claim_C3 :
    ∀ (orc : Orcamento) (ano mes : ℕ),
      (ExportadorCSV.exportar_12_parcelas orc ano mes).length = 12 ∧
      (∀ (k : ℕ) (hk : k < (ExportadorCSV.exportar_12_parcelas orc ano mes).length),
        ((ExportadorCSV.exportar_12_parcelas orc ano mes).get ⟨k, hk⟩).parcela = k + 1 ∧
        ((k : ℤ) + 1 ≤ orc.contrato_parcelas →
          ((ExportadorCSV.exportar_12_parcelas orc ano mes).get ⟨k, hk⟩).contrato_parcela =
            fmt2 orc.valor_contrato_parcela ∧
          ((ExportadorCSV.exportar_12_parcelas orc ano mes).get ⟨k, hk⟩).total_mes =
            fmt2 (orc.aluguel_mensal + orc.valor_contrato_parcela)) ∧
        (orc.contrato_parcelas < (k : ℤ) + 1 →
          ((ExportadorCSV.exportar_12_parcelas orc ano mes).get ⟨k, hk⟩).contrato_parcela =
            "0.00" ∧
          ((ExportadorCSV.exportar_12_parcelas orc ano mes).get ⟨k, hk⟩).total_mes =
            fmt2 orc.aluguel_mensal) ∧
        ((ExportadorCSV.exportar_12_parcelas orc ano mes).get ⟨k, hk⟩).data_referencia =
          String.mk (natChars ano ++ '-' :: fmt02 mes)) ∧
      (∃ o : Orcamento, calcular "Apartamento" 2 true (some false) 0 3 = .ok o ∧
        o.aluguel_mensal = 1140 ∧ o.contrato_total = 2000 ∧ o.contrato_parcelas = 3 ∧
        ∀ (k : ℕ) (hk : k < (ExportadorCSV.exportar_12_parcelas o ano mes).length),
          (k < 3 →
            ((ExportadorCSV.exportar_12_parcelas o ano mes).get ⟨k, hk⟩).contrato_parcela =
              "666.67" ∧
            ((ExportadorCSV.exportar_12_parcelas o ano mes).get ⟨k, hk⟩).total_mes =
              "1806.67") ∧
          (3 ≤ k →
            ((ExportadorCSV.exportar_12_parcelas o ano mes).get ⟨k, hk⟩).contrato_parcela =
              "0.00" ∧
            ((ExportadorCSV.exportar_12_parcelas o ano mes).get ⟨k, hk⟩).total_mes =
              "1140.00")) := by
  intro orc ano mes
  refine ⟨exportar_length orc ano mes, ?_, ?_⟩
  · intro k hk
    rw [exportar_get]
    refine ⟨rfl, fun hle => ?_, fun hgt => ?_, rfl⟩
    · exact ⟨by simp [hle], by simp [hle]⟩
    · have hc : ¬((k : ℤ) + 1 ≤ orc.contrato_parcelas) := by omega
      exact ⟨by simp [hc, fmt2_zero], by simp [hc]⟩
  · have h1 : _normalizar_tipo "Apartamento" = .ok "Apartamento" := by decide
    have h2 : _validar_parcelas 3 = .ok 3 := by decide
    have h3 : _calc_apartamento 2 true (some false) = .ok 1140 := by
      norm_num [_calc_apartamento, VALOR_APARTAMENTO_1Q, ADIC_APTO_2Q,
        ADIC_GARAGEM_APTO_CASA, DESCONTO_APTO_SEM_CRIANCAS]
    have hEval : calcular "Apartamento" 2 true (some false) 0 3 =
        .ok ⟨"Apartamento", 2, true, some false, 0, 1140, CONTRATO_TOTAL, 3⟩ := by
      rw [calcular_eq, h1, h2]
      simp [h3]
    have hval : (⟨"Apartamento", 2, true, some false, 0, 1140, CONTRATO_TOTAL, 3⟩ :
        Orcamento).valor_contrato_parcela = 2000 / 3 := by
      simp [Orcamento.valor_contrato_parcela, CONTRATO_TOTAL]
    refine ⟨⟨"Apartamento", 2, true, some false, 0, 1140, CONTRATO_TOTAL, 3⟩, hEval,
      rfl, by simp [CONTRATO_TOTAL], rfl, ?_⟩
    intro k hk
    rw [exportar_get]
    constructor
    · intro hk3
      have hc : ((k : ℤ) + 1 ≤
          ((⟨"Apartamento", 2, true, some false, 0, 1140, CONTRATO_TOTAL, 3⟩ :
            Orcamento).contrato_parcelas)) := by
        show (k : ℤ) + 1 ≤ 3
        omega
      exact ⟨by simp [hc, hval, fmt2_tercio],
        by simp only []; simp [hc, hval]; exact fmt2_total_tercio⟩
    · intro hk3
      have hc : ¬((k : ℤ) + 1 ≤
          ((⟨"Apartamento", 2, true, some false, 0, 1140, CONTRATO_TOTAL, 3⟩ :
            Orcamento).contrato_parcelas)) := by
        show ¬((k : ℤ) + 1 ≤ 3)
        omega
      exact ⟨by simp [hc, fmt2_zero], by simp [hc]; exact fmt2_1140⟩

/-- Witness for C3 on a concrete house quote and anchor 2026-10, reading
row 1 through the inner quantifier. -/
theorem claim_C3_witness :
    (ExportadorCSV.exportar_12_parcelas ⟨"Casa", 1, false, none, 0, 900, 2000, 2⟩
      2026 10).length = 12 ∧
    ((ExportadorCSV.exportar_12_parcelas ⟨"Casa", 1, false, none, 0, 900, 2000, 2⟩
      2026 10).getD 0 ⟨0, "", "", "", ""⟩).parcela = 1 := by
  have h := claim_C3 ⟨"Casa", 1, false, none, 0, 900, 2000, 2⟩ 2026 10
  have hk : 0 < (ExportadorCSV.exportar_12_parcelas
      ⟨"Casa", 1, false, none, 0, 900, 2000, 2⟩ 2026 10).length := by
    rw [h.1]
    norm_num
  refine ⟨h.1, ?_⟩
  rw [List.getD_eq_get _ _ hk]
  exact (h.2.1 0 hk).1

end OrcamentoAluguel


namespace OrcamentoAluguel

theorem swapBR_digitChar (d : ℕ) : swapBR (digitChar d) = digitChar d := by
  have h : d % 10 < 10 := Nat.mod_lt _ (by norm_num)
  unfold digitChar
  set m := d % 10 with hm
  interval_cases m <;> decide

theorem natCharsGo_mem {fuel n : ℕ} {acc : List Char} {c : Char}
    (h : c ∈ natCharsGo fuel n acc) : (∃ d, c = digitChar d) ∨ c ∈ acc := by
  induction fuel generalizing n acc with
  | zero =>
    simp only [natCharsGo] at h
    exact Or.inr h
  | succ fuel ih =>
    simp only [natCharsGo] at h
    by_cases hn : n < 10
    · rw [if_pos hn] at h
      rcases List.mem_cons.mp h with rfl | h2
      · exact Or.inl ⟨n, rfl⟩
      · exact Or.inr h2
    · rw [if_neg hn] at h
      rcases ih h with h2 | h2
      · exact Or.inl h2
      · rcases List.mem_cons.mp h2 with rfl | h3
        · exact Or.inl ⟨n % 10, rfl⟩
        · exact Or.inr h3

theorem natChars_mem {n : ℕ} {c : Char} (h : c ∈ natChars n) : ∃ d, c = digitChar d := by
  rcases natCharsGo_mem h with h2 | h2
  · exact h2
  · exact absurd h2 (List.not_mem_nil c)

theorem map_id_of {f : Char → Char} {l : List Char} (h : ∀ c ∈ l, f c = c) :
    l.map f = l := by
  conv_rhs => rw [← List.map_id l]
  exact List.map_congr_left h

theorem map_swapBR_natChars (n : ℕ) : (natChars n).map swapBR = natChars n :=
  map_id_of fun c hc => by
    obtain ⟨d, rfl⟩ := natChars_mem hc
    exact swapBR_digitChar d

theorem map_group3Rev (f : Char → Char) (sep : Char) :
    ∀ l : List Char, (group3Rev sep l).map f = group3Rev (f sep) (l.map f)
  | [] => rfl
  | [a] => rfl
  | [a, b] => rfl
  | [a, b, c] => rfl
  | a :: b :: c :: d :: rest => by
    simp only [group3Rev, List.map_cons]
    rw [map_group3Rev f sep (d :: rest)]
    rfl

theorem pyReplace_chain (l : List Char) :
    pyReplace1 (pyReplace1 (pyReplace1 l ',' 'X') '.' ',') 'X' '.' = l.map swapBR := by
  simp only [pyReplace1, List.map_map]
  apply List.map_congr_left
  intro c _
  by_cases h1 : c = ','
  · simp [h1, swapBR]
  · by_cases h2 : c = '.'
    · simp [h1, h2, swapBR]
    · by_cases h3 : c = 'X'
      · simp [h1, h2, h3, swapBR]
      · simp [h1, h2, h3, swapBR]

theorem map_swapBR_groupSep (n : ℕ) :
    (groupSep ',' n).map swapBR = groupSep '.' n := by
  unfold groupSep
  rw [List.map_reverse, map_group3Rev, List.map_reverse, map_swapBR_natChars]
  rfl

theorem map_swapBR_pad2 (n : ℕ) : (pad2 n).map swapBR = pad2 n := by
  unfold pad2
  simp [swapBR_digitChar]

theorem roundCents_nonneg {q : ℚ} (h : 0 ≤ q) : 0 ≤ roundCents q := by
  unfold roundCents
  have h2 : ((0 : ℤ) : ℚ) ≤ q * 100 + 1 / 2 := by push_cast; positivity
  exact Int.le_floor.mpr h2

theorem brl_refines_spec (q : ℚ) (h : 0 ≤ q) : brl q = brlSpecFormat q := by
  have hc : ¬roundCents q < 0 := not_lt.mpr (roundCents_nonneg h)
  simp only [brl, brlSpecFormat, formatUS2, if_neg hc, List.nil_append]
  rw [pyReplace_chain]
  congr 1
  rw [List.map_append, map_swapBR_groupSep, List.map_cons, map_swapBR_pad2]
  rfl


/-- C9: on every non-negative amount the currency formatter `brl` (US
format followed by the replace chain) renders exactly the spec's contract
`brlSpecFormat` — currency marker, period-grouped integer digits, a comma,
then two decimal digits — and `brl(1200.5) = "R$ 1.200,50"`. -/
theorem claim_C9 :
    (∀ q : ℚ, 0 ≤ q → brl q = brlSpecFormat q) ∧
    brl (1200 + 1 / 2) = "R$ 1.200,50" ∧
    brl 1140 = "R$ 1.140,00" := by
  refine ⟨brl_refines_spec, ?_, ?_⟩
  · have hc : roundCents (1200 + 1 / 2) = 120050 :=
      roundCents_of_bounds _ _ (by norm_num) (by norm_num)
    simp only [brl, formatUS2, hc]
    decide
  · have hc : roundCents 1140 = 114000 :=
      roundCents_of_bounds _ _ (by norm_num) (by norm_num)
    simp only [brl, formatUS2, hc]
    decide

/-- Witness for C9 at the amount 1200.50. -/
theorem claim_C9_witness :
    (0 : ℚ) ≤ 1200 + 1 / 2 ∧ brl (1200 + 1 / 2) = brlSpecFormat (1200 + 1 / 2) :=
  ⟨by norm_num, claim_C9.1 (1200 + 1 / 2) (by norm_num)⟩

end OrcamentoAluguel
